import Mathlib

/-
Verification of the geolocation bridge (src/pywgrib2_xr/geolocation.c).

The C file is a thin bridge: two entry points, `ll2ij` and `sec3latlon`,
delegate to four external engine functions (`gctpc_ll2xy_init`,
`gctpc_ll2xy`, `gctpc_get_latlon`, `get_latlon`), set the process-wide
`output_order` global to `wesn` before delegating, and install a
`setjmp`-based recovery target (`fatal_err`) that converts a fatal
non-local unwind raised inside an engine call into status code 9.

Shallow embedding. The external engines are parameters: each engine call
either returns a normal integer status with its output, or raises a fatal
condition (modelling a `longjmp` to `fatal_err`). Global state
(`output_order` and the armed/idle state of the recovery target) is passed
explicitly, and each entry point additionally produces a trace of events so
that temporal claims (call counts, the orientation value each engine call
observes, arming and disarming of the trampoline) can be stated. The grid
definition (`unsigned char **sec`) is an opaque type parameter `σ`, and
coordinate values (`double`) are an arbitrary type parameter `α`: the
bridge never inspects either.
-/

namespace Geolocation

/-- The `enum output_order_type` values of the wrapped library; the bridge
only ever writes `wesn` (west-to-east, south-to-north). -/
inductive output_order_type where
  | raw
  | wesn
  | wens
deriving DecidableEq, Repr

/-- Outcome of one external engine call: either a normal return carrying an
`int` status and the data the engine wrote through its output pointers, or
a fatal condition (a `longjmp` to the installed recovery target). -/
inductive EngRes (β : Type) where
  | ret (status : Int) (out : β)
  | fatal
deriving DecidableEq, Repr

/-- The process-wide mutable state the bridge touches: the `output_order`
global and whether the `fatal_err` recovery target is armed (i.e. a bridge
call is in progress with `setjmp` installed). -/
structure GState where
  output_order : output_order_type
  armed : Bool
deriving DecidableEq, Repr

/-- Events recorded during one bridge call. Each engine-call event records
the arguments passed and the orientation value the engine observes in the
`output_order` global at that moment. -/
inductive Event (σ α : Type) where
  | set_output_order (v : output_order_type)
  | arm
  | disarm
  | call_gctpc_ll2xy_init (sec : σ) (grid_lon grid_lat : List α)
      (oo : output_order_type)
  | call_gctpc_ll2xy (n : Int) (lon lat : List α) (oo : output_order_type)
  | call_gctpc_get_latlon (sec : σ) (oo : output_order_type)
  | call_get_latlon (sec : σ) (oo : output_order_type)
  | fatal_unwind
deriving DecidableEq, Repr

/-- Behaviour of the two external functions `ll2ij` delegates to. Each is a
function of the arguments the bridge passes plus the orientation value it
reads from the `output_order` global. `gctpc_ll2xy_init` builds an internal
projection context; the bridge only looks at its status, so its output type
is `Unit`. `gctpc_ll2xy` writes the `x`/`y` arrays. -/
structure Ll2ijEngines (σ α : Type) where
  gctpc_ll2xy_init : σ → List α → List α → output_order_type → EngRes Unit
  gctpc_ll2xy : Int → List α → List α → output_order_type →
      EngRes (List α × List α)

/-- Behaviour of the two external functions `sec3latlon` delegates to: the
primary extractor `gctpc_get_latlon` and the fallback `get_latlon`, each
producing `lon`/`lat` arrays with a status. -/
structure Sec3Engines (σ α : Type) where
  gctpc_get_latlon : σ → output_order_type → EngRes (List α × List α)
  get_latlon : σ → output_order_type → EngRes (List α × List α)

/-- Result of one `ll2ij` call: the returned status, the final contents of
the caller-provided `x`/`y` output arrays, the process-wide state at
return, and the trace of events. -/
structure Ll2ijOutcome (σ α : Type) where
  status : Int
  x : List α
  y : List α
  finalState : GState
  trace : List (Event σ α)
deriving DecidableEq, Repr

/-- Result of one `sec3latlon` call: status, the arrays stored through the
`lon`/`lat` out-pointers, final process-wide state, and the event trace. -/
structure Sec3Outcome (σ α : Type) where
  status : Int
  lon : List α
  lat : List α
  finalState : GState
  trace : List (Event σ α)
deriving DecidableEq, Repr

variable {σ α : Type}

/-- Embedding of `ll2ij` (geolocation.c lines 17-31):

    output_order = wesn;
    if (setjmp(fatal_err)) { return 9; }
    i = gctpc_ll2xy_init(sec, grid_lon, grid_lat);
    if (i != 0) { return i; }
    i = gctpc_ll2xy(npts, lon, lat, x, y);
    return i;

`g0` is the process-wide state before the call (overwritten, never read).
`x0`/`y0` are the contents of the caller's output arrays before the call;
they are left in place on every path that returns before `gctpc_ll2xy`
returns normally. A fatal condition in either engine call unwinds to the
`setjmp`, which returns 9; leaving the function invalidates the `jmp_buf`,
which the model records as the trampoline returning to the idle state. -/
def ll2ij (eng : Ll2ijEngines σ α) (g0 : GState) (sec : σ)
    (grid_lon grid_lat : List α) (npts : Int)
    (lon lat x0 y0 : List α) : Ll2ijOutcome σ α :=
  let g : GState := { g0 with output_order := output_order_type.wesn,
                              armed := true }
  let pre : List (Event σ α) :=
    [Event.set_output_order output_order_type.wesn, Event.arm]
  let initEv : Event σ α :=
    Event.call_gctpc_ll2xy_init sec grid_lon grid_lat g.output_order
  match eng.gctpc_ll2xy_init sec grid_lon grid_lat g.output_order with
  | EngRes.fatal =>
      { status := 9, x := x0, y := y0,
        finalState := { g with armed := false },
        trace := pre ++ [initEv, Event.fatal_unwind, Event.disarm] }
  | EngRes.ret i _ =>
      if i ≠ 0 then
        { status := i, x := x0, y := y0,
          finalState := { g with armed := false },
          trace := pre ++ [initEv, Event.disarm] }
      else
        let projEv : Event σ α :=
          Event.call_gctpc_ll2xy npts lon lat g.output_order
        match eng.gctpc_ll2xy npts lon lat g.output_order with
        | EngRes.fatal =>
            { status := 9, x := x0, y := y0,
              finalState := { g with armed := false },
              trace := pre ++ [initEv, projEv, Event.fatal_unwind,
                               Event.disarm] }
        | EngRes.ret j xy =>
            { status := j, x := xy.1, y := xy.2,
              finalState := { g with armed := false },
              trace := pre ++ [initEv, projEv, Event.disarm] }

/-- Embedding of `sec3latlon` (geolocation.c lines 34-47):

    output_order = wesn;
    if (setjmp(fatal_err)) { return 9; }
    i = gctpc_get_latlon(sec, lon, lat);
    if (i != 0) { i = get_latlon(sec, lon, lat); }
    return i;

`lon0`/`lat0` are the contents behind the caller's out-pointers before the
call; an engine call that returns normally stores its output through them,
so a failing primary's output is overwritten by the fallback's. -/
def sec3latlon (eng : Sec3Engines σ α) (g0 : GState) (sec : σ)
    (lon0 lat0 : List α) : Sec3Outcome σ α :=
  let g : GState := { g0 with output_order := output_order_type.wesn,
                              armed := true }
  let pre : List (Event σ α) :=
    [Event.set_output_order output_order_type.wesn, Event.arm]
  let primEv : Event σ α := Event.call_gctpc_get_latlon sec g.output_order
  match eng.gctpc_get_latlon sec g.output_order with
  | EngRes.fatal =>
      { status := 9, lon := lon0, lat := lat0,
        finalState := { g with armed := false },
        trace := pre ++ [primEv, Event.fatal_unwind, Event.disarm] }
  | EngRes.ret i p =>
      if i ≠ 0 then
        let fbEv : Event σ α := Event.call_get_latlon sec g.output_order
        match eng.get_latlon sec g.output_order with
        | EngRes.fatal =>
            { status := 9, lon := p.1, lat := p.2,
              finalState := { g with armed := false },
              trace := pre ++ [primEv, fbEv, Event.fatal_unwind,
                               Event.disarm] }
        | EngRes.ret j q =>
            { status := j, lon := q.1, lat := q.2,
              finalState := { g with armed := false },
              trace := pre ++ [primEv, fbEv, Event.disarm] }
      else
        { status := i, lon := p.1, lat := p.2,
          finalState := { g with armed := false },
          trace := pre ++ [primEv, Event.disarm] }

/-- Recognises a call event for the fallback extractor `get_latlon`. -/
def Event.isFallbackCall : Event σ α → Bool
  | Event.call_get_latlon _ _ => true
  | _ => false

/-- Recognises a call event for the primary extractor `gctpc_get_latlon`. -/
def Event.isPrimaryCall : Event σ α → Bool
  | Event.call_gctpc_get_latlon _ _ => true
  | _ => false

/-- Recognises a call event for the point-mapping step `gctpc_ll2xy`. -/
def Event.isProjCall : Event σ α → Bool
  | Event.call_gctpc_ll2xy _ _ _ _ => true
  | _ => false

/-- The orientation value an engine call observes in the `output_order`
global, or `none` for events that are not engine calls. -/
def Event.observedOrder : Event σ α → Option output_order_type
  | Event.call_gctpc_ll2xy_init _ _ _ oo => some oo
  | Event.call_gctpc_ll2xy _ _ _ oo => some oo
  | Event.call_gctpc_get_latlon _ oo => some oo
  | Event.call_get_latlon _ oo => some oo
  | _ => none

/-- Number of events in a trace matching the predicate `p`. -/
def countEvents (p : Event σ α → Bool) (tr : List (Event σ α)) : Nat :=
  (tr.filter p).length

/-- An arbitrary pre-call process state (stale orientation, trampoline
idle), used to instantiate theorems at concrete inputs. -/
def g0test : GState :=
  { output_order := output_order_type.raw, armed := false }

/-- Stub extractor pair for the spec's concrete scenario: the primary
returns status 5 for grid `G`, the fallback returns status 0 with
`lon = [10.0]`, `lat = [20.0]`. -/
def engG : Sec3Engines Unit ℚ where
  gctpc_get_latlon := fun _ _ => EngRes.ret 5 ([], [])
  get_latlon := fun _ _ => EngRes.ret 0 ([10], [20])

/-- Stub extractor pair whose primary succeeds with `lon = [1]`,
`lat = [2]`; the fallback would return a different status and arrays. -/
def engPrimOk : Sec3Engines Unit ℚ where
  gctpc_get_latlon := fun _ _ => EngRes.ret 0 ([1], [2])
  get_latlon := fun _ _ => EngRes.ret 7 ([3], [4])

/-- Stub projection engine whose initializer fails with status 3. -/
def engInitFail : Ll2ijEngines Unit ℚ where
  gctpc_ll2xy_init := fun _ _ _ _ => EngRes.ret 3 ()
  gctpc_ll2xy := fun _ _ _ _ => EngRes.ret 0 ([0], [0])

/-- Stub projection engine that succeeds in both steps, mapping the
single input point to `x = [5]`, `y = [6]` with status 0. -/
def engProjOk : Ll2ijEngines Unit ℚ where
  gctpc_ll2xy_init := fun _ _ _ _ => EngRes.ret 0 ()
  gctpc_ll2xy := fun _ _ _ _ => EngRes.ret 0 ([5], [6])

/-- Stub projection engine whose initializer raises a fatal condition. -/
def engFatalL : Ll2ijEngines Unit ℚ where
  gctpc_ll2xy_init := fun _ _ _ _ => EngRes.fatal
  gctpc_ll2xy := fun _ _ _ _ => EngRes.ret 0 ([], [])

/-- Stub extractor pair whose primary raises a fatal condition. -/
def engFatalS : Sec3Engines Unit ℚ where
  gctpc_get_latlon := fun _ _ => EngRes.fatal
  get_latlon := fun _ _ => EngRes.ret 0 ([], [])

/-- Stub projection engine whose point-mapping step returns 9 as a normal
engine status, with no fatal condition anywhere. -/
def engStatus9L : Ll2ijEngines Unit ℚ where
  gctpc_ll2xy_init := fun _ _ _ _ => EngRes.ret 0 ()
  gctpc_ll2xy := fun _ _ _ _ => EngRes.ret 9 ([], [])

/-- Stub extractor pair whose fallback returns 9 as a normal engine
status, with no fatal condition anywhere. -/
def engStatus9S : Sec3Engines Unit ℚ where
  gctpc_get_latlon := fun _ _ => EngRes.ret 1 ([], [])
  get_latlon := fun _ _ => EngRes.ret 9 ([], [])

/-- Claim C1: whenever the primary extractor `gctpc_get_latlon` returns a
non-zero status, `sec3latlon` invokes the fallback extractor `get_latlon`
exactly once, and if the fallback returns normally, `sec3latlon` returns
the fallback's status and its `lon`/`lat` output, discarding the
primary's output. -/
theorem sec3latlon_fallback_on_primary_failure
    (eng : Sec3Engines σ α) (g0 : GState) (sec : σ) (lon0 lat0 : List α)
    (i : Int) (p : List α × List α)
    (hprim : eng.gctpc_get_latlon sec output_order_type.wesn =
      EngRes.ret i p)
    (hi : i ≠ 0) :
    countEvents Event.isFallbackCall
        (sec3latlon eng g0 sec lon0 lat0).trace = 1 ∧
    (∀ j q, eng.get_latlon sec output_order_type.wesn = EngRes.ret j q →
      (sec3latlon eng g0 sec lon0 lat0).status = j ∧
      (sec3latlon eng g0 sec lon0 lat0).lon = q.1 ∧
      (sec3latlon eng g0 sec lon0 lat0).lat = q.2) := by
  constructor
  · cases hfb : eng.get_latlon sec output_order_type.wesn <;>
      simp [sec3latlon, hprim, hi, hfb, countEvents, Event.isFallbackCall]
  · intro j q hfb
    simp [sec3latlon, hprim, hi, hfb]

/-- Witness for claim C1 at the concrete stub `engG` (primary status 5,
fallback status 0 with `lon = [10]`, `lat = [20]`). -/
theorem sec3latlon_fallback_on_primary_failure_witness :
    countEvents Event.isFallbackCall
        (sec3latlon engG g0test () [] []).trace = 1 ∧
    (∀ j q,
      engG.get_latlon () output_order_type.wesn = EngRes.ret j q →
      (sec3latlon engG g0test () [] []).status = j ∧
      (sec3latlon engG g0test () [] []).lon = q.1 ∧
      (sec3latlon engG g0test () [] []).lat = q.2) :=
  sec3latlon_fallback_on_primary_failure engG g0test () [] [] 5 ([], [])
    (by rfl) (by decide)

/-- Claim C4: whenever the primary extractor `gctpc_get_latlon` returns
status 0, `sec3latlon` returns status 0 with the primary's `lon`/`lat`
output unchanged, and the fallback extractor `get_latlon` is never
invoked in that execution. -/
theorem sec3latlon_primary_success_no_fallback
    (eng : Sec3Engines σ α) (g0 : GState) (sec : σ) (lon0 lat0 : List α)
    (p : List α × List α)
    (hprim : eng.gctpc_get_latlon sec output_order_type.wesn =
      EngRes.ret 0 p) :
    (sec3latlon eng g0 sec lon0 lat0).status = 0 ∧
    (sec3latlon eng g0 sec lon0 lat0).lon = p.1 ∧
    (sec3latlon eng g0 sec lon0 lat0).lat = p.2 ∧
    countEvents Event.isFallbackCall
        (sec3latlon eng g0 sec lon0 lat0).trace = 0 := by
  simp [sec3latlon, hprim, countEvents, Event.isFallbackCall]

/-- Witness for claim C4 at the concrete stub `engPrimOk` (primary
status 0 with `lon = [1]`, `lat = [2]`). -/
theorem sec3latlon_primary_success_no_fallback_witness :
    (sec3latlon engPrimOk g0test () [] []).status = 0 ∧
    (sec3latlon engPrimOk g0test () [] []).lon = ([1] : List ℚ) ∧
    (sec3latlon engPrimOk g0test () [] []).lat = ([2] : List ℚ) ∧
    countEvents Event.isFallbackCall
        (sec3latlon engPrimOk g0test () [] []).trace = 0 :=
  sec3latlon_primary_success_no_fallback engPrimOk g0test () [] []
    ([1], [2]) (by rfl)

/-- Claim C8: on the concrete grid `G` where the primary extractor returns
status 5 and the fallback returns status 0 with `lon = [10.0]` and
`lat = [20.0]`, `sec3latlon` returns status 0 with `lon = [10.0]` and
`lat = [20.0]`. -/
theorem sec3latlon_concrete_scenario :
    (sec3latlon engG g0test () [] []).status = 0 ∧
    (sec3latlon engG g0test () [] []).lon = [(10 : ℚ)] ∧
    (sec3latlon engG g0test () [] []).lat = [(20 : ℚ)] := by
  refine ⟨rfl, rfl, rfl⟩

/-- Claim C3: whenever the projection initializer `gctpc_ll2xy_init`
returns a status `k ≠ 0`, `ll2ij` returns exactly `k` and the
point-mapping step `gctpc_ll2xy` is never called in that execution. -/
theorem ll2ij_init_failure_propagated
    (eng : Ll2ijEngines σ α) (g0 : GState) (sec : σ)
    (grid_lon grid_lat : List α) (npts : Int) (lon lat x0 y0 : List α)
    (k : Int) (u : Unit)
    (hinit : eng.gctpc_ll2xy_init sec grid_lon grid_lat
      output_order_type.wesn = EngRes.ret k u)
    (hk : k ≠ 0) :
    (ll2ij eng g0 sec grid_lon grid_lat npts lon lat x0 y0).status = k ∧
    countEvents Event.isProjCall
        (ll2ij eng g0 sec grid_lon grid_lat npts lon lat x0 y0).trace
      = 0 := by
  simp [ll2ij, hinit, hk, countEvents, Event.isProjCall]

/-- Witness for claim C3 at the concrete stub `engInitFail` (initializer
status 3). -/
theorem ll2ij_init_failure_propagated_witness :
    (ll2ij engInitFail g0test () [] [] 1 [1] [1] [0] [0]).status = 3 ∧
    countEvents Event.isProjCall
        (ll2ij engInitFail g0test () [] [] 1 [1] [1] [0] [0]).trace
      = 0 :=
  ll2ij_init_failure_propagated engInitFail g0test () [] [] 1 [1] [1]
    [0] [0] 3 () (by rfl) (by decide)

/-- Claim C5: whenever `gctpc_ll2xy_init` returns 0 and no fatal condition
is raised (both engine steps return normally), `ll2ij` calls `gctpc_ll2xy`
exactly once, with the `npts` input coordinate arrays `lon` and `lat`,
writes its output into the `x`/`y` arrays, and returns its status
unchanged — 0 on success, any non-zero engine status passed through
verbatim. -/
theorem ll2ij_projects_and_passes_status_through
    (eng : Ll2ijEngines σ α) (g0 : GState) (sec : σ)
    (grid_lon grid_lat : List α) (npts : Int) (lon lat x0 y0 : List α)
    (u : Unit) (j : Int) (xy : List α × List α)
    (hinit : eng.gctpc_ll2xy_init sec grid_lon grid_lat
      output_order_type.wesn = EngRes.ret 0 u)
    (hproj : eng.gctpc_ll2xy npts lon lat output_order_type.wesn =
      EngRes.ret j xy) :
    (ll2ij eng g0 sec grid_lon grid_lat npts lon lat x0 y0).status = j ∧
    (ll2ij eng g0 sec grid_lon grid_lat npts lon lat x0 y0).x = xy.1 ∧
    (ll2ij eng g0 sec grid_lon grid_lat npts lon lat x0 y0).y = xy.2 ∧
    (ll2ij eng g0 sec grid_lon grid_lat npts lon lat
        x0 y0).trace.filter Event.isProjCall
      = [Event.call_gctpc_ll2xy npts lon lat output_order_type.wesn] := by
  simp [ll2ij, hinit, hproj, Event.isProjCall]

/-- Witness for claim C5 at the concrete stub `engProjOk` (initializer
status 0, point mapping status 0 with `x = [5]`, `y = [6]`). -/
theorem ll2ij_projects_and_passes_status_through_witness :
    (ll2ij engProjOk g0test () [] [] 1 [1] [1] [0] [0]).status = 0 ∧
    (ll2ij engProjOk g0test () [] [] 1 [1] [1] [0] [0]).x
      = ([5] : List ℚ) ∧
    (ll2ij engProjOk g0test () [] [] 1 [1] [1] [0] [0]).y
      = ([6] : List ℚ) ∧
    (ll2ij engProjOk g0test () [] [] 1 [1] [1]
        [0] [0]).trace.filter Event.isProjCall
      = [Event.call_gctpc_ll2xy 1 [1] [1] output_order_type.wesn] :=
  ll2ij_projects_and_passes_status_through engProjOk g0test () [] [] 1
    [1] [1] [0] [0] () 0 ([5], [6]) (by rfl) (by rfl)

/-- Claim C2: in every call to `ll2ij` or `sec3latlon`, if a fatal
condition is raised during the delegated engine calls (the trace contains
a fatal unwind to the installed recovery target), the entry point returns
status 9. -/
theorem bridge_fatal_returns_9
    (engL : Ll2ijEngines σ α) (engS : Sec3Engines σ α) (g0 g1 : GState)
    (sec sec' : σ) (grid_lon grid_lat : List α) (npts : Int)
    (lon lat x0 y0 lon0 lat0 : List α) :
    (Event.fatal_unwind ∈
        (ll2ij engL g0 sec grid_lon grid_lat npts lon lat x0 y0).trace →
      (ll2ij engL g0 sec grid_lon grid_lat npts lon lat x0 y0).status
        = 9) ∧
    (Event.fatal_unwind ∈ (sec3latlon engS g1 sec' lon0 lat0).trace →
      (sec3latlon engS g1 sec' lon0 lat0).status = 9) := by
  constructor
  · intro hmem
    cases hinit : engL.gctpc_ll2xy_init sec grid_lon grid_lat
        output_order_type.wesn with
    | fatal => simp [ll2ij, hinit]
    | ret i u =>
      by_cases hi : i = 0
      · cases hproj : engL.gctpc_ll2xy npts lon lat
            output_order_type.wesn with
        | fatal => simp [ll2ij, hinit, hi, hproj]
        | ret j xy =>
          simp [ll2ij, hinit, hi, hproj] at hmem
      · simp [ll2ij, hinit, hi] at hmem
  · intro hmem
    cases hprim : engS.gctpc_get_latlon sec' output_order_type.wesn with
    | fatal => simp [sec3latlon, hprim]
    | ret i p =>
      by_cases hi : i = 0
      · simp [sec3latlon, hprim, hi] at hmem
      · cases hfb : engS.get_latlon sec' output_order_type.wesn with
        | fatal => simp [sec3latlon, hprim, hi, hfb]
        | ret j q =>
          simp [sec3latlon, hprim, hi, hfb] at hmem

/-- Witness for claim C2 at the concrete stubs `engFatalL` and
`engFatalS`, whose first engine call raises a fatal condition. -/
theorem bridge_fatal_returns_9_witness :
    (ll2ij engFatalL g0test () [] [] 1 [1] [1] [0] [0]).status = 9 ∧
    (sec3latlon engFatalS g0test () [] []).status = 9 :=
  ⟨(bridge_fatal_returns_9 engFatalL engFatalS g0test g0test () () [] []
      1 [1] [1] [0] [0] [] []).1 (by decide),
   (bridge_fatal_returns_9 engFatalL engFatalS g0test g0test () () [] []
      1 [1] [1] [0] [0] [] []).2 (by decide)⟩

/-- Helper: shape of every `ll2ij` trace and final state, whatever the
engines do. The first event writes `wesn` to `output_order`, the second
arms the recovery target, the last event disarms it, the final
process-wide state is `output_order = wesn` with the trampoline idle, and
every engine call observes orientation `wesn`. -/
theorem ll2ij_trace_spec (eng : Ll2ijEngines σ α) (g0 : GState) (sec : σ)
    (grid_lon grid_lat : List α) (npts : Int) (lon lat x0 y0 : List α) :
    (ll2ij eng g0 sec grid_lon grid_lat npts lon lat x0 y0).trace.head?
      = some (Event.set_output_order output_order_type.wesn) ∧
    (ll2ij eng g0 sec grid_lon grid_lat npts lon lat x0 y0).trace[1]?
      = some Event.arm ∧
    (ll2ij eng g0 sec grid_lon grid_lat npts lon lat
        x0 y0).trace.getLast?
      = some Event.disarm ∧
    (ll2ij eng g0 sec grid_lon grid_lat npts lon lat x0 y0).finalState
      = { output_order := output_order_type.wesn, armed := false } ∧
    (∀ e ∈ (ll2ij eng g0 sec grid_lon grid_lat npts lon lat x0 y0).trace,
      ∀ oo, e.observedOrder = some oo → oo = output_order_type.wesn) := by
  cases hinit : eng.gctpc_ll2xy_init sec grid_lon grid_lat
      output_order_type.wesn with
  | fatal => simp [ll2ij, hinit, Event.observedOrder]
  | ret i u =>
    by_cases hi : i = 0
    · cases hproj : eng.gctpc_ll2xy npts lon lat
          output_order_type.wesn with
      | fatal => simp [ll2ij, hinit, hi, hproj, Event.observedOrder]
      | ret j xy => simp [ll2ij, hinit, hi, hproj, Event.observedOrder]
    · simp [ll2ij, hinit, hi, Event.observedOrder]

/-- Helper: shape of every `sec3latlon` trace and final state, whatever
the engines do; same shape as for `ll2ij`. -/
theorem sec3latlon_trace_spec (eng : Sec3Engines σ α) (g0 : GState)
    (sec : σ) (lon0 lat0 : List α) :
    (sec3latlon eng g0 sec lon0 lat0).trace.head?
      = some (Event.set_output_order output_order_type.wesn) ∧
    (sec3latlon eng g0 sec lon0 lat0).trace[1]? = some Event.arm ∧
    (sec3latlon eng g0 sec lon0 lat0).trace.getLast?
      = some Event.disarm ∧
    (sec3latlon eng g0 sec lon0 lat0).finalState
      = { output_order := output_order_type.wesn, armed := false } ∧
    (∀ e ∈ (sec3latlon eng g0 sec lon0 lat0).trace,
      ∀ oo, e.observedOrder = some oo → oo = output_order_type.wesn) := by
  cases hprim : eng.gctpc_get_latlon sec output_order_type.wesn with
  | fatal => simp [sec3latlon, hprim, Event.observedOrder]
  | ret i p =>
    by_cases hi : i = 0
    · simp [sec3latlon, hprim, hi, Event.observedOrder]
    · cases hfb : eng.get_latlon sec output_order_type.wesn with
      | fatal => simp [sec3latlon, hprim, hi, hfb, Event.observedOrder]
      | ret j q => simp [sec3latlon, hprim, hi, hfb, Event.observedOrder]

/-- Claim C6: in every execution of `ll2ij` and of `sec3latlon`, the
process-wide `output_order` flag is set to `wesn` before any delegated
engine function is invoked (the first trace event is the write of `wesn`),
and no engine call ever observes a stale orientation value: every engine
call in the trace observes exactly `wesn`. -/
theorem orientation_set_before_engine_calls
    (engL : Ll2ijEngines σ α) (engS : Sec3Engines σ α) (g0 g1 : GState)
    (sec sec' : σ) (grid_lon grid_lat : List α) (npts : Int)
    (lon lat x0 y0 lon0 lat0 : List α) :
    (ll2ij engL g0 sec grid_lon grid_lat npts lon lat x0 y0).trace.head?
      = some (Event.set_output_order output_order_type.wesn) ∧
    (∀ e ∈ (ll2ij engL g0 sec grid_lon grid_lat npts lon lat
        x0 y0).trace,
      ∀ oo, e.observedOrder = some oo → oo = output_order_type.wesn) ∧
    (sec3latlon engS g1 sec' lon0 lat0).trace.head?
      = some (Event.set_output_order output_order_type.wesn) ∧
    (∀ e ∈ (sec3latlon engS g1 sec' lon0 lat0).trace,
      ∀ oo, e.observedOrder = some oo → oo = output_order_type.wesn) :=
  ⟨(ll2ij_trace_spec engL g0 sec grid_lon grid_lat npts lon lat
      x0 y0).1,
   (ll2ij_trace_spec engL g0 sec grid_lon grid_lat npts lon lat
      x0 y0).2.2.2.2,
   (sec3latlon_trace_spec engS g1 sec' lon0 lat0).1,
   (sec3latlon_trace_spec engS g1 sec' lon0 lat0).2.2.2.2⟩

/-- Witness for claim C6 at the concrete stubs `engProjOk` and `engG`,
instantiating the observed-orientation statement at the point-mapping
call event of the `ll2ij` trace. -/
theorem orientation_set_before_engine_calls_witness :
    (ll2ij engProjOk g0test () [] [] 1 [1] [1] [0] [0]).trace.head?
      = some (Event.set_output_order output_order_type.wesn) ∧
    output_order_type.wesn = output_order_type.wesn :=
  ⟨(orientation_set_before_engine_calls engProjOk engG g0test g0test
      () () [] [] 1 [1] [1] [0] [0] [] []).1,
   (orientation_set_before_engine_calls engProjOk engG g0test g0test
      () () [] [] 1 [1] [1] [0] [0] [] []).2.1
     (Event.call_gctpc_ll2xy 1 [1] [1] output_order_type.wesn)
     (by decide) output_order_type.wesn (by rfl)⟩

/-- Claim C7: modelling the recovery trampoline as a two-state machine,
every call to `ll2ij` or `sec3latlon` transitions it idle-to-armed on
entry (the arming event immediately follows the orientation write) and
armed-to-idle on exit on both normal return and fatal-condition unwind
(the last trace event is the disarm, and the trampoline is idle in the
final state), so an armed state never persists into subsequent calls,
fatal recovery with status 9 included. -/
theorem trampoline_armed_idle_discipline
    (engL : Ll2ijEngines σ α) (engS : Sec3Engines σ α) (g0 g1 : GState)
    (sec sec' : σ) (grid_lon grid_lat : List α) (npts : Int)
    (lon lat x0 y0 lon0 lat0 : List α) :
    (ll2ij engL g0 sec grid_lon grid_lat npts lon lat x0 y0).trace[1]?
      = some Event.arm ∧
    (ll2ij engL g0 sec grid_lon grid_lat npts lon lat
        x0 y0).trace.getLast?
      = some Event.disarm ∧
    (ll2ij engL g0 sec grid_lon grid_lat npts lon lat
        x0 y0).finalState.armed = false ∧
    (sec3latlon engS g1 sec' lon0 lat0).trace[1]? = some Event.arm ∧
    (sec3latlon engS g1 sec' lon0 lat0).trace.getLast?
      = some Event.disarm ∧
    (sec3latlon engS g1 sec' lon0 lat0).finalState.armed = false := by
  have hL := ll2ij_trace_spec engL g0 sec grid_lon grid_lat npts lon lat
    x0 y0
  have hS := sec3latlon_trace_spec engS g1 sec' lon0 lat0
  refine ⟨hL.2.1, hL.2.2.1, ?_, hS.2.1, hS.2.2.1, ?_⟩
  · rw [hL.2.2.2.1]
  · rw [hS.2.2.2.1]

/-- Claim C9: on every return from `ll2ij` or `sec3latlon` — normal or
fatal — the process-wide `output_order` flag equals `wesn`; the flag is
assigned before the recovery target is installed (the write event
precedes the arming event at the head of the trace), so even the fatal
status-9 path leaves it set to `wesn` rather than restoring any pre-call
value. -/
theorem output_order_wesn_on_return
    (engL : Ll2ijEngines σ α) (engS : Sec3Engines σ α) (g0 g1 : GState)
    (sec sec' : σ) (grid_lon grid_lat : List α) (npts : Int)
    (lon lat x0 y0 lon0 lat0 : List α) :
    (ll2ij engL g0 sec grid_lon grid_lat npts lon lat
        x0 y0).finalState.output_order = output_order_type.wesn ∧
    (ll2ij engL g0 sec grid_lon grid_lat npts lon lat x0 y0).trace.head?
      = some (Event.set_output_order output_order_type.wesn) ∧
    (ll2ij engL g0 sec grid_lon grid_lat npts lon lat x0 y0).trace[1]?
      = some Event.arm ∧
    (sec3latlon engS g1 sec' lon0 lat0).finalState.output_order
      = output_order_type.wesn ∧
    (sec3latlon engS g1 sec' lon0 lat0).trace.head?
      = some (Event.set_output_order output_order_type.wesn) ∧
    (sec3latlon engS g1 sec' lon0 lat0).trace[1]? = some Event.arm := by
  have hL := ll2ij_trace_spec engL g0 sec grid_lon grid_lat npts lon lat
    x0 y0
  have hS := sec3latlon_trace_spec engS g1 sec' lon0 lat0
  refine ⟨?_, hL.1, hL.2.1, ?_, hS.1, hS.2.1⟩
  · rw [hL.2.2.2.1]
  · rw [hS.2.2.2.1]

/-- Claim C10: the bridge does not reserve status 9 at its boundary.
With engines in which `gctpc_ll2xy` (resp. `get_latlon`) returns 9 as a
normal status and no fatal condition is raised, `ll2ij` (resp.
`sec3latlon`) returns 9 — the same status a fatal-abort recovery
produces — so the two are indistinguishable to the caller. -/
theorem status_9_not_reserved :
    (ll2ij engStatus9L g0test () [] [] 1 [1] [1] [0] [0]).status = 9 ∧
    Event.fatal_unwind ∉
      (ll2ij engStatus9L g0test () [] [] 1 [1] [1] [0] [0]).trace ∧
    (ll2ij engFatalL g0test () [] [] 1 [1] [1] [0] [0]).status = 9 ∧
    Event.fatal_unwind ∈
      (ll2ij engFatalL g0test () [] [] 1 [1] [1] [0] [0]).trace ∧
    (sec3latlon engStatus9S g0test () [] []).status = 9 ∧
    Event.fatal_unwind ∉ (sec3latlon engStatus9S g0test () [] []).trace ∧
    (sec3latlon engFatalS g0test () [] []).status = 9 ∧
    Event.fatal_unwind ∈
      (sec3latlon engFatalS g0test () [] []).trace := by
  decide

end Geolocation
